import Mathlib

/-!
Shallow embedding of the msgraph-toolkit client library (Python) for
verification of its specification.

The repository offers every operation twice, as a blocking (`Sync*`) and a
non-blocking (`Async*`) variant with line-for-line identical logic; each
definition below models both variants at once and the doc comment names the
source locations.

Modelling conventions:
* Python byte strings are modelled by their length where only the length
  matters (attachment payloads), and by explicit values elsewhere.
* `httpx` responses are modelled by `HttpResponse` (status, JSON-object body
  as an association list of string fields, raw text).
  `response.raise_for_status()` raises `httpx.HTTPStatusError` exactly for
  non-2xx statuses, which we model with `is2xx`.
* Python exceptions are modelled by `PyErr`; fallible code returns
  `Except PyErr _`.  The spec-level error taxonomy maps onto the code as
  ValidationError = Python `ValueError`, AuthError = the bare
  `Exception("No se pudo obtener el token de acceso")` raised by `get_token`
  (the code defines no dedicated exception classes).
* Network interaction is captured as the ordered list of issued calls
  (`NetCall`), returned alongside the result; responses are supplied as
  explicit parameters (one per possible call site), which makes every
  definition executable.
-/

namespace MsGraph

/-- A Python exception, by type and message.  `httpStatusError` carries the
status and body text of the response attached to `httpx.HTTPStatusError`;
`exceptionError` is a bare `raise Exception(msg)`. -/
inductive PyErr where
  | valueError (msg : String)
  | permissionError (msg : String)
  | httpStatusError (status : Nat) (text : String)
  | exceptionError (msg : String)
  | keyError (key : String)
  | indexError (msg : String)
  | nameError (msg : String)
  | fileNotFoundError (msg : String)
  deriving DecidableEq

/-- An HTTP response: status code, JSON object body (string-valued fields,
as an association list) and raw body text. -/
structure HttpResponse where
  status : Nat
  body : List (String × String)
  text : String
  deriving DecidableEq

/-- Success statuses: `httpx.Response.raise_for_status` raises for every
status outside 200–299. -/
def is2xx (c : Nat) : Bool := 200 ≤ c && c < 300

/-- Field lookup in a JSON object body (`token_response.get('access_token')`,
`session['uploadUrl']`, `'access_token' in token_response`). -/
def jsonGet (body : List (String × String)) (k : String) : Option String :=
  (body.find? (fun p => p.1 = k)).map (fun p => p.2)

/-- Python truthiness of an optional string (`if drive_id:`): `None` and the
empty string are falsy. -/
def truthy : Option String → Bool
  | none => false
  | some s => s ≠ ""

/-- Rendering of an optional string inside a Python f-string: `None` prints
as "None". -/
def pyStr : Option String → String
  | none => "None"
  | some s => s

/-- One network call issued by the client, in issue order.  Chunk uploads
carry the content-range data `start-last/total`. -/
inductive NetCall where
  | tokenCall
  | inlinePost (encodedLen : Nat)
  | negotiateCall (size : Nat)
  | chunkPut (start last total : Nat)
  | getItemCall (url : String) (ifNoneMatch : Option String)
  | patchItemCall (url : String) (ifMatch : Option String)
  | listDrivesCall (url : String)
  | getDriveCall (url : String)
  | listItemsCall (url : String)
  | listChangesCall (url : String)
  | createFolderCall (url : String)
  | uploadContentCall (url : String)
  | downloadContentCall (url : String) (ifNoneMatch : Option String)
  deriving DecidableEq

/-- Is this trace entry the token-endpoint call (as opposed to a Microsoft
Graph resource call)? -/
def NetCall.isTokenCall : NetCall → Bool
  | .tokenCall => true
  | _ => false

/-- `SyncMsGraph.get_token` (sync_client.py lines 23–50) and the identical
`AsyncMsGraph.get_token` (async_client.py): POST the client-credentials form
to the token endpoint, `raise_for_status`, then require `access_token` in the
JSON body — raising a bare `Exception` if it is missing — and finally cache
and return the token.  The input `token` is the current `self.token`; the
returned option is `self.token` after the call. -/
def getToken (token : Option String) (resp : HttpResponse) :
    Except PyErr String × Option String :=
  if ¬ is2xx resp.status then
    (.error (.httpStatusError resp.status resp.text), token)
  else
    match jsonGet resp.body "access_token" with
    | none => (.error (.exceptionError "No se pudo obtener el token de acceso"), token)
    | some t => (.ok t, some t)

/-- The `if not self.client.token: self.client.get_token()` prologue shared
by every toolkit operation.  Returns the (possibly empty) call trace of the
prologue and its outcome. -/
def ensureToken (token : Option String) (tokResp : HttpResponse) :
    List NetCall × Except PyErr Unit :=
  if truthy token then ([], .ok ())
  else
    match (getToken token tokResp).1 with
    | .ok _ => ([.tokenCall], .ok ())
    | .error e => ([.tokenCall], .error e)

/-! ## Mail attachments (toolkit/mails.py) -/

/-- Inline-upload threshold: `3 * 1024 * 1024` (mails.py lines 495, 950). -/
def smallSizeLimit : Nat := 3 * 1024 * 1024

/-- Hard cap on attachment size: `150 * 1024 * 1024` (mails.py lines 507, 962). -/
def maxAttachmentSize : Nat := 150 * 1024 * 1024

/-- Upload chunk size: `4 * 1024 * 1024` (mails.py lines 519, 974). -/
def chunkSize : Nat := 4 * 1024 * 1024

/-- Length of `base64.b64encode(content).decode()` for `n` input bytes:
standard base64 without newlines, `4 * ceil(n / 3)` characters. -/
def b64Len (n : Nat) : Nat := 4 * ((n + 2) / 3)

/-- Python `range(0, stop, step)` for `step > 0`: the `ceil(stop/step)`
values `0, step, 2*step, …` below `stop` (mails.py line 520). -/
def pyRangeStep (stop step : Nat) : List Nat :=
  (List.range ((stop + step - 1) / step)).map (fun i => i * step)

/-- The chunk byte ranges produced by the upload loop of `add_attachment`
(mails.py lines 519–522): for each `start` in `range(0, S, chunkSize)` the
slice `content[start:start + chunkSize]` has `min chunkSize (S - start)`
bytes and the loop computes `end = start + len(chunk) - 1`. -/
def chunkCalls (S : Nat) : List (Nat × Nat) :=
  (pyRangeStep S chunkSize).map (fun start => (start, start + min chunkSize (S - start) - 1))

/-- The chunk-upload loop of `add_attachment` (mails.py lines 520–530)
together with `_upload_chunk` (lines 575–591): chunks are PUT strictly in
list order, each `raise_for_status`-checked before the next is issued; a
non-2xx response raises `httpx.HTTPStatusError` and ends the loop.
`chunkResp i` is the server's response to the i-th chunk; `k` is the index
of the first chunk of `ranges` within the whole transfer. -/
def uploadChunks (total : Nat) (chunkResp : Nat → HttpResponse) :
    List (Nat × Nat) → Nat → List NetCall × Except PyErr Unit
  | [], _ => ([], .ok ())
  | (start, last) :: rest, k =>
      let r := chunkResp k
      if is2xx r.status then
        let next := uploadChunks total chunkResp rest (k + 1)
        (.chunkPut start last total :: next.1, next.2)
      else
        ([.chunkPut start last total], .error (.httpStatusError r.status r.text))

/-- Substring test used by the 400-response handlers:
`"insufficient privileges" in e.response.text.lower()`. -/
def mentionsInsufficientPrivileges (text : String) : Bool :=
  (text.toLower.splitOn "insufficient privileges").length ≥ 2

/-- The `except httpx.HTTPStatusError` handler of `_add_attachment_raw`
(mails.py lines 655–682): 400 with an insufficient-privileges body, 401 and
403 become `PermissionError`; 404 and 413 become `ValueError`; every other
status (and a 400 without the marker text) is re-raised unchanged.  Errors
that are not `httpx.HTTPStatusError` are not caught. -/
def attachmentRawHandler : PyErr → PyErr
  | .httpStatusError 400 text =>
      if mentionsInsufficientPrivileges text then
        .permissionError "No tiene los permisos necesarios. Se requiere Mail.ReadWrite"
      else .httpStatusError 400 text
  | .httpStatusError 401 _ =>
      .permissionError "Token no válido o expirado. Asegúrese de tener los permisos Mail.ReadWrite"
  | .httpStatusError 403 _ =>
      .permissionError "No tiene permisos para agregar adjuntos. Se requiere Mail.ReadWrite"
  | .httpStatusError 404 _ => .valueError "El mensaje especificado no existe"
  | .httpStatusError 413 _ => .valueError "El adjunto excede el límite permitido de 3MB"
  | e => e

/-- `AsyncMails._add_attachment_raw` (mails.py lines 593–682) and the
identical sync variant: fetch a token if none is cached, validate `user_id`
against the credential mode, validate `message_id`, reject an encoded
payload longer than `3 * 1024 * 1024` characters, then POST the inline
attachment and return the parsed body.  `encLen` is
`len(base64.b64encode(content).decode())`.  All raised
`httpx.HTTPStatusError`s pass through `attachmentRawHandler`. -/
def addAttachmentRaw (token : Option String) (isDelegated : Bool)
    (userId : Option String) (messageId : String) (encLen : Nat)
    (tokResp inlineResp : HttpResponse) :
    List NetCall × Except PyErr (List (String × String)) :=
  let tk := ensureToken token tokResp
  match tk.2 with
  | .error e => (tk.1, .error (attachmentRawHandler e))
  | .ok _ =>
    if ¬ truthy userId && ¬ isDelegated then
      (tk.1, .error (.valueError
        "Debe proporcionar user_id cuando usa client credentials. Para acceder a /me use autenticación delegada"))
    else if messageId = "" then
      (tk.1, .error (.valueError "Debe proporcionar message_id"))
    else if encLen ≠ 0 && encLen > 3 * 1024 * 1024 then
      (tk.1, .error (.valueError "El adjunto excede el límite de 3MB"))
    else
      let trace := tk.1 ++ [.inlinePost encLen]
      if is2xx inlineResp.status then (trace, .ok inlineResp.body)
      else (trace, .error (attachmentRawHandler
        (.httpStatusError inlineResp.status inlineResp.text)))

/-- `AsyncMails._create_upload_session` (mails.py lines 539–573) and the
identical sync variant: fetch a token if needed, POST the
`createUploadSession` request declaring name, size and inline flag,
`raise_for_status`, then read `uploadUrl` from the JSON body (a missing key
would be a Python `KeyError` at the caller's `session['uploadUrl']`). -/
def createUploadSession (token : Option String) (size : Nat)
    (tokResp negResp : HttpResponse) :
    List NetCall × Except PyErr (List (String × String)) :=
  let tk := ensureToken token tokResp
  match tk.2 with
  | .error e => (tk.1, .error e)
  | .ok _ =>
    let trace := tk.1 ++ [.negotiateCall size]
    if is2xx negResp.status then (trace, .ok negResp.body)
    else (trace, .error (.httpStatusError negResp.status negResp.text))

/-- `AsyncMails.add_attachment` (mails.py lines 404–537) and the identical
sync variant (lines 847–992), in the `content` + `file_name` mode (the
`file_path` mode only adds a filesystem read): with `S = len(content)`,
payloads of at most `smallSizeLimit` bytes are base64-encoded and delegated
to `_add_attachment_raw`; payloads above `maxAttachmentSize` raise
`ValueError` before any call; otherwise an upload session is negotiated and
the payload is PUT in `chunkSize` chunks, the session body being returned on
success.  The surrounding `except Exception` block only logs and re-raises,
and a missing `uploadUrl` key in the session body raises `KeyError`. -/
def addAttachment (token : Option String) (isDelegated : Bool)
    (userId : Option String) (messageId : String) (S : Nat)
    (tokResp inlineResp negResp : HttpResponse) (chunkResp : Nat → HttpResponse) :
    List NetCall × Except PyErr (List (String × String)) :=
  if S ≤ smallSizeLimit then
    addAttachmentRaw token isDelegated userId messageId (b64Len S) tokResp inlineResp
  else if S > maxAttachmentSize then
    ([], .error (.valueError "El archivo excede el límite máximo de 150MB"))
  else
    let neg := createUploadSession token S tokResp negResp
    match neg.2 with
    | .error e => (neg.1, .error e)
    | .ok session =>
      match jsonGet session "uploadUrl" with
      | none => (neg.1, .error (.keyError "uploadUrl"))
      | some _ =>
        let up := uploadChunks S chunkResp (chunkCalls S) 0
        match up.2 with
        | .error e => (neg.1 ++ up.1, .error e)
        | .ok _ => (neg.1 ++ up.1, .ok session)

/-! ## Drives (toolkit/drives.py) -/

/-- `self.client.base_url` (base.py line 54). -/
def baseUrl : String := "https://graph.microsoft.com/v1.0"

/-- `len([i for i in [drive_id, user_id, group_id, site_id] if i is not None])`
(drives.py lines 94, 169, 599): the number of scope identifiers supplied. -/
def scopeCount (driveId userId groupId siteId : Option String) : Nat :=
  (([driveId, userId, groupId, siteId]).filter Option.isSome).length

/-- Python `item_path.strip('/')`: remove leading and trailing slashes. -/
def stripSlashes (s : String) : String :=
  String.mk (((s.toList.dropWhile (fun c => c = '/')).reverse.dropWhile
    (fun c => c = '/')).reverse)

/-- Inputs of `get_item` (drives.py lines 128–141); the `$select`, `$expand`
and `includeDeletedItems` query parameters are omitted because they never
affect control flow. -/
structure GetItemArgs where
  itemId : Option String
  itemPath : Option String
  driveId : Option String
  userId : Option String
  groupId : Option String
  siteId : Option String
  listId : Option String
  etag : Option String
  deriving DecidableEq

/-- URL construction of `get_item` (drives.py lines 177–200).  In the
SharePoint special case (`site_id` with truthy `list_id`) the code assigns
`url` but not `base_url` and clears `item_path`; the trailing `else` branch
then evaluates `f"\x7bbase_url\x7d/root"` with `base_url` unbound, so every
call on that path raises `UnboundLocalError` before any request. -/
def getItemUrl (a : GetItemArgs) : Except PyErr String :=
  if ¬ truthy a.driveId && ¬ truthy a.userId && ¬ truthy a.groupId &&
      truthy a.siteId && truthy a.listId then
    .error (.nameError "base_url")
  else
    let b :=
      if truthy a.driveId then baseUrl ++ "/drives/" ++ pyStr a.driveId
      else if truthy a.userId then baseUrl ++ "/users/" ++ pyStr a.userId ++ "/drive"
      else if truthy a.groupId then baseUrl ++ "/groups/" ++ pyStr a.groupId ++ "/drive"
      else if truthy a.siteId then baseUrl ++ "/sites/" ++ pyStr a.siteId ++ "/drive"
      else baseUrl ++ "/me/drive"
    if a.itemPath.isSome then .ok (b ++ "/root:/" ++ stripSlashes (pyStr a.itemPath))
    else if a.itemId.isSome && ¬ truthy a.listId then .ok (b ++ "/items/" ++ pyStr a.itemId)
    else .ok (b ++ "/root")

/-- `AsyncDrives.get_item` (drives.py lines 128–229) and the identical sync
variant: fetch a token if none is cached, reject more than one scope
identifier, reject `item_id` together with `item_path`, build the URL, then
GET with an `if-none-match` header when `etag` is given.  A 304 response
returns `None` (modelled as `.ok none`) before `raise_for_status`; there is
no `except` handler. -/
def getItem (token : Option String) (a : GetItemArgs)
    (tokResp resp : HttpResponse) :
    List NetCall × Except PyErr (Option (List (String × String))) :=
  let tk := ensureToken token tokResp
  match tk.2 with
  | .error e => (tk.1, .error e)
  | .ok _ =>
    if scopeCount a.driveId a.userId a.groupId a.siteId > 1 then
      (tk.1, .error (.valueError
        "Solo puede proporcionar uno de: drive_id, user_id, group_id, site_id"))
    else if a.itemId.isSome && a.itemPath.isSome then
      (tk.1, .error (.valueError "No puede proporcionar item_id e item_path simultáneamente"))
    else
      match getItemUrl a with
      | .error e => (tk.1, .error e)
      | .ok url =>
        let trace := tk.1 ++ [.getItemCall url a.etag]
        if resp.status = 304 then (trace, .ok none)
        else if is2xx resp.status then (trace, .ok (some resp.body))
        else (trace, .error (.httpStatusError resp.status resp.text))

/-- `AsyncDrives.get_drive` (drives.py lines 65–126) and the identical sync
variant: fetch a token if needed, require exactly one of the four scope
identifiers, build the URL by truthiness, GET and `raise_for_status`.
If the single supplied identifier is the empty string no branch assigns
`url` and the request line raises `UnboundLocalError`. -/
def getDrive (token : Option String) (driveId userId groupId siteId : Option String)
    (tokResp resp : HttpResponse) :
    List NetCall × Except PyErr (List (String × String)) :=
  let tk := ensureToken token tokResp
  match tk.2 with
  | .error e => (tk.1, .error e)
  | .ok _ =>
    let n := scopeCount driveId userId groupId siteId
    if n = 0 then
      (tk.1, .error (.valueError "Debe proporcionar drive_id, user_id, group_id o site_id"))
    else if n > 1 then
      (tk.1, .error (.valueError "Solo puede proporcionar un tipo de ID"))
    else if truthy driveId then
      driveGet (tk.1) (baseUrl ++ "/drives/" ++ pyStr driveId) resp
    else if truthy userId then
      driveGet (tk.1) (baseUrl ++ "/users/" ++ pyStr userId ++ "/drive") resp
    else if truthy groupId then
      driveGet (tk.1) (baseUrl ++ "/groups/" ++ pyStr groupId ++ "/drive") resp
    else if truthy siteId then
      driveGet (tk.1) (baseUrl ++ "/sites/" ++ pyStr siteId ++ "/drive") resp
    else (tk.1, .error (.nameError "url"))
where
  /-- the GET + `raise_for_status` + `response.json()` tail shared by the
  four branches -/
  driveGet (pre : List NetCall) (url : String) (resp : HttpResponse) :
      List NetCall × Except PyErr (List (String × String)) :=
    if is2xx resp.status then (pre ++ [.getDriveCall url], .ok resp.body)
    else (pre ++ [.getDriveCall url], .error (.httpStatusError resp.status resp.text))

/-- `AsyncDrives.list_drives` (drives.py lines 13–63) and the identical sync
variant: fetch a token if needed; when `resource_id` and `resource_type` are
both truthy, validate `resource_type` against `['users','groups','sites']`
and address the resource, IGNORING `user_id`; otherwise fall back to
`/users/\x7buser_id\x7d/drives` (rendering `None` into the URL when
`user_id` is absent).  No mutual-exclusion check is performed. -/
def listDrives (token : Option String) (userId resourceId resourceType : Option String)
    (tokResp resp : HttpResponse) :
    List NetCall × Except PyErr (List (String × String)) :=
  let tk := ensureToken token tokResp
  match tk.2 with
  | .error e => (tk.1, .error e)
  | .ok _ =>
    if truthy resourceId && truthy resourceType then
      if ¬ (pyStr resourceType = "users" || pyStr resourceType = "groups" ||
            pyStr resourceType = "sites") then
        (tk.1, .error (.valueError "resource_type debe ser 'users', 'groups' o 'sites'"))
      else
        let url := baseUrl ++ "/" ++ pyStr resourceType ++ "/" ++ pyStr resourceId ++ "/drives"
        if is2xx resp.status then (tk.1 ++ [.listDrivesCall url], .ok resp.body)
        else (tk.1 ++ [.listDrivesCall url],
          .error (.httpStatusError resp.status resp.text))
    else
      let url := baseUrl ++ "/users/" ++ pyStr userId ++ "/drives"
      if is2xx resp.status then (tk.1 ++ [.listDrivesCall url], .ok resp.body)
      else (tk.1 ++ [.listDrivesCall url],
        .error (.httpStatusError resp.status resp.text))

/-- The `except httpx.HTTPStatusError` handler of `update_item` (drives.py
lines 639–657): 400 with an insufficient-privileges body, 401 and 403 become
`PermissionError`; everything else is re-raised unchanged. -/
def updateItemHandler : PyErr → PyErr
  | .httpStatusError 400 text =>
      if mentionsInsufficientPrivileges text then
        .permissionError "No tiene los permisos necesarios. Se requiere Files.ReadWrite o Files.ReadWrite.All"
      else .httpStatusError 400 text
  | .httpStatusError 401 _ =>
      .permissionError "Token no válido o expirado. Asegúrese de tener los permisos Files.ReadWrite o Files.ReadWrite.All"
  | .httpStatusError 403 _ =>
      .permissionError "No tiene permisos para actualizar elementos en este drive. Se requiere Files.ReadWrite o Files.ReadWrite.All"
  | e => e

/-- `AsyncDrives.update_item` (drives.py lines 564–657) and the identical
sync variant (lines 1296–1362): inside a `try` block, fetch a token if
needed, reject more than one scope identifier, build the URL, then PATCH
with an `if-match` header when `etag` is given.  A 412 response returns
`None` (modelled `.ok none`) before `raise_for_status`; other non-2xx
statuses raise and pass through `updateItemHandler`. -/
def updateItem (token : Option String) (itemId : String)
    (driveId userId groupId siteId etag : Option String)
    (tokResp resp : HttpResponse) :
    List NetCall × Except PyErr (Option (List (String × String))) :=
  let tk := ensureToken token tokResp
  match tk.2 with
  | .error e => (tk.1, .error (updateItemHandler e))
  | .ok _ =>
    if scopeCount driveId userId groupId siteId > 1 then
      (tk.1, .error (.valueError
        "Solo puede proporcionar uno de: drive_id, user_id, group_id, site_id"))
    else
      let b :=
        if truthy driveId then baseUrl ++ "/drives/" ++ pyStr driveId
        else if truthy userId then baseUrl ++ "/users/" ++ pyStr userId ++ "/drive"
        else if truthy groupId then baseUrl ++ "/groups/" ++ pyStr groupId ++ "/drive"
        else if truthy siteId then baseUrl ++ "/sites/" ++ pyStr siteId ++ "/drive"
        else baseUrl ++ "/me/drive"
      let trace := tk.1 ++ [.patchItemCall (b ++ "/items/" ++ itemId) etag]
      if resp.status = 412 then (trace, .ok none)
      else if is2xx resp.status then (trace, .ok (some resp.body))
      else (trace, .error (updateItemHandler (.httpStatusError resp.status resp.text)))

/-- `AsyncDrives.list_items` (drives.py lines 281–373) and the identical
sync variant: fetch a token if needed, reject more than one scope
identifier, reject `item_id` together with `item_path`, build the children
URL (with the special `item_id == 'root'` shortcut), GET and
`raise_for_status`.  No `except` handler. -/
def listItems (token : Option String) (itemId itemPath : Option String)
    (driveId userId groupId siteId : Option String)
    (tokResp resp : HttpResponse) :
    List NetCall × Except PyErr (List (String × String)) :=
  let tk := ensureToken token tokResp
  match tk.2 with
  | .error e => (tk.1, .error e)
  | .ok _ =>
    if scopeCount driveId userId groupId siteId > 1 then
      (tk.1, .error (.valueError
        "Solo puede proporcionar uno de: drive_id, user_id, group_id, site_id"))
    else if itemId.isSome && itemPath.isSome then
      (tk.1, .error (.valueError "No puede proporcionar item_id e item_path simultáneamente"))
    else
      let b :=
        if truthy driveId then baseUrl ++ "/drives/" ++ pyStr driveId
        else if truthy userId then baseUrl ++ "/users/" ++ pyStr userId ++ "/drive"
        else if truthy groupId then baseUrl ++ "/groups/" ++ pyStr groupId ++ "/drive"
        else if truthy siteId then baseUrl ++ "/sites/" ++ pyStr siteId ++ "/drive"
        else baseUrl ++ "/me/drive"
      let url :=
        if itemPath.isSome then b ++ "/root:/" ++ stripSlashes (pyStr itemPath) ++ ":/children"
        else if itemId.isSome then
          if pyStr itemId = "root" then b ++ "/root/children"
          else b ++ "/items/" ++ pyStr itemId ++ "/children"
        else b ++ "/root/children"
      let trace := tk.1 ++ [.listItemsCall url]
      if is2xx resp.status then (trace, .ok resp.body)
      else (trace, .error (.httpStatusError resp.status resp.text))

/-- `AsyncDrives.list_changes` (drives.py lines 375–458) and the identical
sync variant: fetch a token if needed, reject more than one scope
identifier, build the delta URL (appending the delta token unless it is
the string "latest"), GET and `raise_for_status`.  No `except` handler. -/
def listChanges (token : Option String) (deltaToken : Option String)
    (driveId userId groupId siteId : Option String)
    (tokResp resp : HttpResponse) :
    List NetCall × Except PyErr (List (String × String)) :=
  let tk := ensureToken token tokResp
  match tk.2 with
  | .error e => (tk.1, .error e)
  | .ok _ =>
    if scopeCount driveId userId groupId siteId > 1 then
      (tk.1, .error (.valueError
        "Solo puede proporcionar uno de: drive_id, user_id, group_id, site_id"))
    else
      let b :=
        if truthy driveId then baseUrl ++ "/drives/" ++ pyStr driveId
        else if truthy userId then baseUrl ++ "/users/" ++ pyStr userId ++ "/drive"
        else if truthy groupId then baseUrl ++ "/groups/" ++ pyStr groupId ++ "/drive"
        else if truthy siteId then baseUrl ++ "/sites/" ++ pyStr siteId ++ "/drive"
        else baseUrl ++ "/me/drive"
      let url0 := b ++ "/root/delta"
      let url :=
        if truthy deltaToken then
          if pyStr deltaToken ≠ "latest" then url0 ++ "(token='" ++ pyStr deltaToken ++ "')"
          else url0 ++ "?token=latest"
        else url0
      let trace := tk.1 ++ [.listChangesCall url]
      if is2xx resp.status then (trace, .ok resp.body)
      else (trace, .error (.httpStatusError resp.status resp.text))

/-- The `except httpx.HTTPStatusError` handler of `create_folder`
(drives.py lines 544–562): 400 with an insufficient-privileges body, 401
and 403 become `PermissionError`; everything else is re-raised unchanged. -/
def createFolderHandler : PyErr → PyErr
  | .httpStatusError 400 text =>
      if mentionsInsufficientPrivileges text then
        .permissionError "No tiene los permisos necesarios. Se requiere Files.ReadWrite o Files.ReadWrite.All"
      else .httpStatusError 400 text
  | .httpStatusError 401 _ =>
      .permissionError "Token no válido o expirado. Asegúrese de tener los permisos Files.ReadWrite o Files.ReadWrite.All"
  | .httpStatusError 403 _ =>
      .permissionError "No tiene permisos para crear carpetas en este drive. Se requiere Files.ReadWrite o Files.ReadWrite.All"
  | e => e

/-- `AsyncDrives.create_folder` (drives.py lines 460–562; the sync class
has no such method): inside a `try` block, fetch a token if needed, require
at least one and at most one scope identifier, validate
`conflict_behavior`, build the URL (the unreachable-looking trailing
`else` re-raises the at-least-one message when the single identifier is an
empty string), POST and `raise_for_status` through `createFolderHandler`. -/
def createFolder (token : Option String) (parentId : Option String)
    (driveId userId groupId siteId : Option String) (conflictBehavior : String)
    (tokResp resp : HttpResponse) :
    List NetCall × Except PyErr (List (String × String)) :=
  let tk := ensureToken token tokResp
  match tk.2 with
  | .error e => (tk.1, .error (createFolderHandler e))
  | .ok _ =>
    let n := scopeCount driveId userId groupId siteId
    if n = 0 then
      (tk.1, .error (.valueError "Debe proporcionar uno de: drive_id, user_id, group_id, site_id"))
    else if n > 1 then
      (tk.1, .error (.valueError
        "Solo puede proporcionar uno de: drive_id, user_id, group_id, site_id"))
    else if ¬ (conflictBehavior = "rename" || conflictBehavior = "replace" ||
        conflictBehavior = "fail") then
      (tk.1, .error (.valueError "conflict_behavior debe ser 'rename', 'replace' o 'fail'"))
    else
      let b? : Option String :=
        if truthy driveId then some (baseUrl ++ "/drives/" ++ pyStr driveId)
        else if truthy userId then some (baseUrl ++ "/users/" ++ pyStr userId ++ "/drive")
        else if truthy groupId then some (baseUrl ++ "/groups/" ++ pyStr groupId ++ "/drive")
        else if truthy siteId then some (baseUrl ++ "/sites/" ++ pyStr siteId ++ "/drive")
        else none
      match b? with
      | none =>
          (tk.1, .error (.valueError "Debe proporcionar uno de: drive_id, user_id, group_id, site_id"))
      | some b =>
        let url :=
          if truthy parentId then b ++ "/items/" ++ pyStr parentId ++ "/children"
          else b ++ "/root/children"
        let trace := tk.1 ++ [.createFolderCall url]
        if is2xx resp.status then (trace, .ok resp.body)
        else (trace, .error (createFolderHandler (.httpStatusError resp.status resp.text)))

/-- The `except httpx.HTTPStatusError` handler of `upload_content`
(drives.py lines 763–787): 400 with an insufficient-privileges body, 401
and 403 become `PermissionError`; 413 becomes `ValueError`; everything
else is re-raised unchanged. -/
def uploadContentHandler : PyErr → PyErr
  | .httpStatusError 400 text =>
      if mentionsInsufficientPrivileges text then
        .permissionError "No tiene los permisos necesarios. Se requiere Files.ReadWrite o Files.ReadWrite.All"
      else .httpStatusError 400 text
  | .httpStatusError 401 _ =>
      .permissionError "Token no válido o expirado. Asegúrese de tener los permisos Files.ReadWrite o Files.ReadWrite.All"
  | .httpStatusError 403 _ =>
      .permissionError "No tiene permisos para subir archivos en este drive. Se requiere Files.ReadWrite o Files.ReadWrite.All"
  | .httpStatusError 413 _ =>
      .valueError "El archivo excede el límite permitido. Use upload_large_file para archivos más grandes"
  | e => e

/-- `AsyncDrives.upload_content` (drives.py lines 659–787) and the
identical sync variant: inside a `try` block, fetch a token if needed,
reject content over 250 MiB, reject more than one scope identifier,
validate the create/update parameter mode, build the URL, PUT the raw
bytes (modelled by their count `S`) and `raise_for_status` through
`uploadContentHandler`. -/
def uploadContent (token : Option String) (S : Nat)
    (filename itemId parentId : Option String)
    (driveId userId groupId siteId : Option String)
    (tokResp resp : HttpResponse) :
    List NetCall × Except PyErr (List (String × String)) :=
  let tk := ensureToken token tokResp
  match tk.2 with
  | .error e => (tk.1, .error (uploadContentHandler e))
  | .ok _ =>
    if S > 250 * 1024 * 1024 then
      (tk.1, .error (.valueError
        "El archivo excede el límite de 250MB. Use upload_large_file para archivos más grandes"))
    else if scopeCount driveId userId groupId siteId > 1 then
      (tk.1, .error (.valueError
        "Solo puede proporcionar uno de: drive_id, user_id, group_id, site_id"))
    else if truthy itemId && (truthy filename || truthy parentId) then
      (tk.1, .error (.valueError
        "Para actualizar un archivo use solo item_id. Para crear uno nuevo use filename y parent_id"))
    else if ¬ truthy itemId && (¬ truthy filename || ¬ truthy parentId) then
      (tk.1, .error (.valueError
        "Para crear un archivo nuevo debe proporcionar filename y parent_id"))
    else
      let b :=
        if truthy driveId then baseUrl ++ "/drives/" ++ pyStr driveId
        else if truthy userId then baseUrl ++ "/users/" ++ pyStr userId ++ "/drive"
        else if truthy groupId then baseUrl ++ "/groups/" ++ pyStr groupId ++ "/drive"
        else if truthy siteId then baseUrl ++ "/sites/" ++ pyStr siteId ++ "/drive"
        else baseUrl ++ "/me/drive"
      let url :=
        if truthy itemId then b ++ "/items/" ++ pyStr itemId ++ "/content"
        else b ++ "/items/" ++ pyStr parentId ++ ":/" ++ pyStr filename ++ ":/content"
      let trace := tk.1 ++ [.uploadContentCall url]
      if is2xx resp.status then (trace, .ok resp.body)
      else (trace, .error (uploadContentHandler (.httpStatusError resp.status resp.text)))

/-- The `except httpx.HTTPStatusError` handler of `download_content`
(drives.py lines 884–905): 400 with an insufficient-privileges body, 401
and 403 become `PermissionError`; 404 becomes `FileNotFoundError`;
everything else is re-raised unchanged. -/
def downloadContentHandler : PyErr → PyErr
  | .httpStatusError 400 text =>
      if mentionsInsufficientPrivileges text then
        .permissionError "No tiene los permisos necesarios. Se requiere Files.Read o Files.Read.All"
      else .httpStatusError 400 text
  | .httpStatusError 401 _ =>
      .permissionError "Token no válido o expirado. Asegúrese de tener los permisos Files.Read o Files.Read.All"
  | .httpStatusError 403 _ =>
      .permissionError "No tiene permisos para descargar archivos de este drive. Se requiere Files.Read o Files.Read.All"
  | .httpStatusError 404 _ => .fileNotFoundError "El archivo solicitado no existe"
  | e => e

/-- `AsyncDrives.download_content` (drives.py lines 789–905) and the
identical sync variant: inside a `try` block, fetch a token if needed,
reject more than one scope identifier, require exactly one of
`item_id`/`item_path`, build the content URL, GET with an `if-none-match`
header when `etag` is given (the `Range` header of `byte_range` affects no
control flow and is omitted); a 304 response returns `None` before
`raise_for_status`, whose errors pass through `downloadContentHandler`;
success returns the raw body, modelled by the response text. -/
def downloadContent (token : Option String) (itemId itemPath : Option String)
    (driveId userId groupId siteId : Option String) (etag : Option String)
    (tokResp resp : HttpResponse) :
    List NetCall × Except PyErr (Option String) :=
  let tk := ensureToken token tokResp
  match tk.2 with
  | .error e => (tk.1, .error (downloadContentHandler e))
  | .ok _ =>
    if scopeCount driveId userId groupId siteId > 1 then
      (tk.1, .error (.valueError
        "Solo puede proporcionar uno de: drive_id, user_id, group_id, site_id"))
    else if ¬ itemId.isSome && ¬ itemPath.isSome then
      (tk.1, .error (.valueError "Debe proporcionar item_id o item_path"))
    else if itemId.isSome && itemPath.isSome then
      (tk.1, .error (.valueError "No puede proporcionar item_id e item_path simultáneamente"))
    else
      let b :=
        if truthy driveId then baseUrl ++ "/drives/" ++ pyStr driveId
        else if truthy userId then baseUrl ++ "/users/" ++ pyStr userId ++ "/drive"
        else if truthy groupId then baseUrl ++ "/groups/" ++ pyStr groupId ++ "/drive"
        else if truthy siteId then baseUrl ++ "/sites/" ++ pyStr siteId ++ "/drive"
        else baseUrl ++ "/me/drive"
      let url :=
        if itemPath.isSome then b ++ "/root:/" ++ stripSlashes (pyStr itemPath) ++ ":/content"
        else b ++ "/items/" ++ pyStr itemId ++ "/content"
      let trace := tk.1 ++ [.downloadContentCall url etag]
      if resp.status = 304 then (trace, .ok none)
      else if is2xx resp.status then (trace, .ok (some resp.text))
      else (trace, .error (downloadContentHandler (.httpStatusError resp.status resp.text)))

/-! ## Recipient normalization (toolkit/mails.py `_process_recipients`) -/

/-- A Python value as far as `_process_recipients` can observe it. -/
inductive PyVal where
  | strV (s : String)
  | tupleV (elems : List PyVal)
  | dictV (entries : List (String × PyVal))
  | intV (n : Int)
  | noneV

/-- `k in d` for a Python dict. -/
def dictContains (entries : List (String × PyVal)) (k : String) : Bool :=
  entries.any (fun p => p.1 = k)

/-- `d.get(k)` for a Python dict (keys are unique at runtime). -/
def dictGet (entries : List (String × PyVal)) (k : String) : Option PyVal :=
  (entries.find? (fun p => p.1 = k)).map (fun p => p.2)

/-- The Graph recipient shape built by `_process_recipients`. -/
def mkRecipient (addr nm : PyVal) : PyVal :=
  .dictV [("emailAddress", .dictV [("address", addr), ("name", nm)])]

/-- One iteration of `_process_recipients` (mails.py lines 705–739, identical
sync variant at 1375–1420).  For a tuple, the code runs
`email, name = recipient if len(recipient) > 1 else (recipient[0], "")`:
a pair unpacks, a longer tuple raises `ValueError` ("too many values to
unpack"), a singleton falls back to `(recipient[0], "")`, and an empty tuple
raises `IndexError` at `recipient[0]`.  A dict containing `"emailAddress"`
is appended unchanged; any other dict is rebuilt from `.get("address")`
(Python `None` when missing) and `.get("name", "")`.  Other types raise
`ValueError`; the Python message also interpolates the offending value,
which the model leaves out. -/
def processOne : PyVal → Except PyErr PyVal
  | .strV s => .ok (mkRecipient (.strV s) (.strV ""))
  | .tupleV es =>
    if 1 < es.length then
      match es with
      | [a, b] => .ok (mkRecipient a b)
      | _ => .error (.valueError "too many values to unpack (expected 2)")
    else
      match es with
      | [a] => .ok (mkRecipient a (.strV ""))
      | _ => .error (.indexError "tuple index out of range")
  | .dictV entries =>
    if dictContains entries "emailAddress" then .ok (.dictV entries)
    else .ok (mkRecipient ((dictGet entries "address").getD .noneV)
        ((dictGet entries "name").getD (.strV "")))
  | _ => .error (.valueError "Formato de destinatario no soportado. Use string, tuple o dict")

/-- `_process_recipients` (mails.py lines 684–741): left-to-right over the
input list, appending each converted element; the first raising element
aborts the whole call. -/
def processRecipients (rs : List PyVal) : Except PyErr (List PyVal) :=
  rs.mapM processOne

/-- Input shapes accepted without raising (used to state claim C10): a
string, a tuple of length one or two, or a dict. -/
def claimedInput : PyVal → Bool
  | .strV _ => true
  | .tupleV es => es.length = 1 || es.length = 2
  | .dictV _ => true
  | _ => false

/-- The element types on which `_process_recipients` hits its final `else`
and raises `ValueError` (anything that is not a str, tuple or dict). -/
def otherType : PyVal → Bool
  | .strV _ => false
  | .tupleV _ => false
  | .dictV _ => false
  | _ => true

/-- Per-element output of claim C10 as amended, pinned exactly: a bare
string becomes the canonical recipient with that address and name ""; a
1-tuple likewise with its sole element as address; a 2-tuple contributes
address and name in order; a dict already containing "emailAddress" passes
through unchanged (its shape unchecked); any other dict is rebuilt from its
"address" entry (Python `None` when missing) and its "name" entry
(default ""). -/
def claimedOutput : PyVal → PyVal → Prop
  | .strV a, o => o = mkRecipient (.strV a) (.strV "")
  | .tupleV [a], o => o = mkRecipient a (.strV "")
  | .tupleV [a, b], o => o = mkRecipient a b
  | .dictV entries, o =>
      if dictContains entries "emailAddress" then o = .dictV entries
      else o = mkRecipient ((dictGet entries "address").getD .noneV)
        ((dictGet entries "name").getD (.strV ""))
  | _, _ => False

/-! ## Helper lemmas -/

/-- Every element accepted by the amended claim is converted by one loop
iteration into an output related to it by `claimedOutput`. -/
theorem processOne_ok_of_claimedInput (r : PyVal) (hr : claimedInput r = true) :
    ∃ o, processOne r = .ok o ∧ claimedOutput r o := by
  cases r with
  | strV s =>
      exact ⟨_, rfl, by simp [claimedOutput]⟩
  | tupleV es =>
      have : es.length = 1 ∨ es.length = 2 := by
        simp [claimedInput] at hr
        omega
      rcases this with h1 | h2
      · obtain ⟨a, rfl⟩ : ∃ a, es = [a] := by
          cases es with
          | nil => simp at h1
          | cons a t =>
              cases t with
              | nil => exact ⟨a, rfl⟩
              | cons b t2 => simp at h1
        exact ⟨_, rfl, by simp [claimedOutput]⟩
      · obtain ⟨a, b, rfl⟩ : ∃ a b, es = [a, b] := by
          cases es with
          | nil => simp at h2
          | cons a t =>
              cases t with
              | nil => simp at h2
              | cons b t2 =>
                  cases t2 with
                  | nil => exact ⟨a, b, rfl⟩
                  | cons c t3 => simp at h2
        exact ⟨_, rfl, by simp [claimedOutput]⟩
  | dictV entries =>
      by_cases hc : dictContains entries "emailAddress"
      · refine ⟨.dictV entries, ?_, ?_⟩
        · simp [processOne, hc]
        · simp [claimedOutput, hc]
      · refine ⟨mkRecipient ((dictGet entries "address").getD .noneV)
            ((dictGet entries "name").getD (.strV "")), ?_, ?_⟩
        · simp [processOne, hc]
        · simp [claimedOutput, hc]
  | intV n => simp [claimedInput] at hr
  | noneV => simp [claimedInput] at hr

/-- An element of any type other than str, tuple or dict raises the
unsupported-format `ValueError`. -/
theorem processOne_err_of_otherType (v : PyVal) (hv : otherType v = true) :
    processOne v =
      .error (.valueError "Formato de destinatario no soportado. Use string, tuple o dict") := by
  cases v <;> simp [otherType] at hv <;> rfl

/-- A tuple of three or more elements makes the unpacking
`email, name = recipient` raise `ValueError`. -/
theorem processOne_long_tuple (es : List PyVal) (h : 3 ≤ es.length) :
    processOne (.tupleV es) =
      .error (.valueError "too many values to unpack (expected 2)") := by
  cases es with
  | nil => simp at h
  | cons a t1 =>
      cases t1 with
      | nil => simp at h
      | cons b t2 =>
          cases t2 with
          | nil => simp at h
          | cons c t3 =>
              have hlen : 1 < (a :: b :: c :: t3).length := by
                simp
              simp [processOne, hlen]

/-- A raising element aborts `_process_recipients` with its error after any
prefix of accepted elements. -/
theorem processRecipients_prefix_err (pre : List PyVal) (v : PyVal)
    (post : List PyVal) (hpre : ∀ r ∈ pre, claimedInput r = true) (e : PyErr)
    (hv : processOne v = .error e) :
    processRecipients (pre ++ v :: post) = .error e := by
  induction pre with
  | nil =>
      unfold processRecipients
      rw [List.nil_append, List.mapM_cons, hv]
      rfl
  | cons r rest ih =>
      obtain ⟨o, ho, _⟩ := processOne_ok_of_claimedInput r (hpre r (List.mem_cons_self _ _))
      have ih2 := ih (fun x hx => hpre x (List.mem_cons_of_mem _ hx))
      unfold processRecipients at ih2 ⊢
      rw [List.cons_append, List.mapM_cons, ho, ih2]
      rfl

/-- When the token is cached, or the exchange succeeds with an
`access_token` field, the token prologue succeeds; it issues the token call
exactly when no truthy token was cached. -/
theorem ensureToken_ok (token : Option String) (tokResp : HttpResponse)
    (h : truthy token = true ∨
      (is2xx tokResp.status = true ∧ jsonGet tokResp.body "access_token" ≠ none)) :
    ensureToken token tokResp = ((if truthy token then [] else [.tokenCall]), .ok ()) := by
  unfold ensureToken getToken
  rcases h with h | ⟨h1, h2⟩
  · simp [h]
  · by_cases ht : truthy token
    · simp [ht]
    · cases hj : jsonGet tokResp.body "access_token" with
      | none => exact absurd hj h2
      | some t => simp [ht, h1, hj]

/-- Outside the broken SharePoint-list path, `get_item`'s URL construction
always succeeds. -/
theorem getItemUrl_ok (a : GetItemArgs)
    (h : ¬ (truthy a.siteId = true ∧ truthy a.listId = true)) :
    ∃ u, getItemUrl a = .ok u := by
  unfold getItemUrl
  have hguard : (¬ truthy a.driveId && ¬ truthy a.userId && ¬ truthy a.groupId &&
      truthy a.siteId && truthy a.listId) = false := by
    cases hs : truthy a.siteId <;> cases hl : truthy a.listId <;> simp_all
  rw [hguard]
  simp only [Bool.false_eq_true, if_false]
  split
  · exact ⟨_, rfl⟩
  · split
    · exact ⟨_, rfl⟩
    · exact ⟨_, rfl⟩

/-! ## Claim theorems -/

/-- C7: for every token-exchange response whose JSON body lacks the
`access_token` field, `get_token` raises (the code's realization of the
spec's AuthError is the bare `Exception("No se pudo obtener el token de
acceso")` — no dedicated exception class exists) and does not cache any
token: the client's token field is returned unchanged, so a previously
absent token stays absent. -/
theorem C7_missing_access_token_raises (token : Option String) (resp : HttpResponse)
    (h2xx : is2xx resp.status = true)
    (hmiss : jsonGet resp.body "access_token" = none) :
    getToken token resp =
      (.error (.exceptionError "No se pudo obtener el token de acceso"), token) := by
  unfold getToken
  simp [h2xx, hmiss]

/-- Witness for C7: a 200 token response with no `access_token` field, on a
client with no cached token. -/
theorem C7_missing_access_token_raises_witness :
    is2xx (200 : Nat) = true ∧
    jsonGet [("token_type", "Bearer")] "access_token" = none ∧
    getToken none ⟨200, [("token_type", "Bearer")], ""⟩ =
      (.error (.exceptionError "No se pudo obtener el token de acceso"), none) :=
  ⟨by decide, by decide,
    C7_missing_access_token_raises none ⟨200, [("token_type", "Bearer")], ""⟩
      (by decide) (by decide)⟩

/-- C3: for every `add_attachment` call whose payload exceeds the
150-MiB hard cap, the operation raises `ValueError` (the code's realization
of the spec's ValidationError) and issues no network call at all: the call
trace is empty — no upload session is negotiated, no chunk is sent, and not
even a token request is made. -/
theorem C3_over_cap_no_network (token : Option String) (isDelegated : Bool)
    (userId : Option String) (messageId : String) (S : Nat)
    (tokResp inlineResp negResp : HttpResponse) (chunkResp : Nat → HttpResponse)
    (h : maxAttachmentSize < S) :
    addAttachment token isDelegated userId messageId S tokResp inlineResp negResp chunkResp =
      ([], .error (.valueError "El archivo excede el límite máximo de 150MB")) := by
  unfold addAttachment
  have h1 : ¬ S ≤ smallSizeLimit := by
    unfold smallSizeLimit
    unfold maxAttachmentSize at h
    omega
  have h2 : S > maxAttachmentSize := h
  simp [h1, h2]

/-- Witness for C3: one byte over the cap. -/
theorem C3_over_cap_no_network_witness :
    maxAttachmentSize < 157286401 ∧
    addAttachment (some "t") false (some "u") "m" 157286401 ⟨200, [], ""⟩ ⟨200, [], ""⟩
        ⟨200, [], ""⟩ (fun _ => ⟨200, [], ""⟩) =
      ([], .error (.valueError "El archivo excede el límite máximo de 150MB")) :=
  ⟨by decide,
    C3_over_cap_no_network (some "t") false (some "u") "m" 157286401
      ⟨200, [], ""⟩ ⟨200, [], ""⟩ ⟨200, [], ""⟩ (fun _ => ⟨200, [], ""⟩) (by decide)⟩

/-- C2: the claim states that every payload of size S ≤ 3 MiB is transferred
with exactly one network call.  The code disagrees: `add_attachment` routes
S ≤ 3 MiB to `_add_attachment_raw`, but that method re-checks the 3-MiB
limit against the base64-ENCODED content (`len(content_bytes)`, which is
`4 * ceil(S / 3)` characters), so every payload with
2359296 < S ≤ 3145728 raw bytes is rejected with `ValueError` after zero
network calls and cannot be uploaded by any strategy.  Here, at
S = 3145728 (exactly 3 MiB, encoded length 4194304) with a cached token,
a valid `user_id` and `message_id`, and all-success responses available,
the call trace is empty and `ValueError` is raised. -/
theorem C2_encoded_size_check_rejects_small_payload :
    addAttachment (some "tok") false (some "user") "msg" 3145728
      ⟨200, [("access_token", "T")], ""⟩ ⟨200, [], ""⟩
      ⟨200, [("uploadUrl", "U")], ""⟩ (fun _ => ⟨200, [], ""⟩) =
      ([], .error (.valueError "El adjunto excede el límite de 3MB")) := by
  rfl

/-- C8: every conditional `get_item` call that reaches the request and is
answered 304 yields the NotModified outcome — the Python `None`, modelled
`.ok none`, carrying no parsed body — and raises no exception.  The
hypotheses require a usable token (cached, or obtainable), a valid
parameter combination, and exclude the SharePoint-list path on which the
code crashes before any request. -/
theorem C8_304_yields_not_modified (token : Option String) (a : GetItemArgs)
    (tokResp resp : HttpResponse)
    (htok : truthy token = true ∨
      (is2xx tokResp.status = true ∧ jsonGet tokResp.body "access_token" ≠ none))
    (hscope : scopeCount a.driveId a.userId a.groupId a.siteId ≤ 1)
    (hids : (a.itemId.isSome && a.itemPath.isSome) = false)
    (hlist : ¬ (truthy a.siteId = true ∧ truthy a.listId = true))
    (h304 : resp.status = 304) :
    (getItem token a tokResp resp).2 = .ok none := by
  obtain ⟨u, hu⟩ := getItemUrl_ok a hlist
  unfold getItem
  rw [ensureToken_ok token tokResp htok]
  have h1 : ¬ scopeCount a.driveId a.userId a.groupId a.siteId > 1 := by omega
  simp [h1, hids, hu, h304]

/-- Witness for C8: a conditional request on a drive-scoped item answered
304 on a client with a cached token. -/
theorem C8_304_yields_not_modified_witness :
    truthy (some "tok") = true ∧
    scopeCount (some "D") none none none ≤ 1 ∧
    (getItem (some "tok")
        ⟨some "I", none, some "D", none, none, none, none, some "W/\"v1\""⟩
        ⟨200, [], ""⟩ ⟨304, [], ""⟩).2 = .ok none :=
  ⟨by decide, by decide,
    C8_304_yields_not_modified (some "tok")
      ⟨some "I", none, some "D", none, none, none, none, some "W/\"v1\""⟩
      ⟨200, [], ""⟩ ⟨304, [], ""⟩ (Or.inl (by decide)) (by decide) (by decide)
      (by decide) (by decide)⟩

/-- C9: every conditional `update_item` call (if-match ETag) that reaches
the PATCH and is answered 412 returns the "not applied" outcome — the
Python `None`, modelled `.ok none`, distinct from the parsed-body success —
without raising any error: the 412 check precedes `raise_for_status` and
the `except` handler never runs. -/
theorem C9_412_yields_not_applied (token : Option String) (itemId : String)
    (driveId userId groupId siteId : Option String) (etag : String)
    (tokResp resp : HttpResponse)
    (htok : truthy token = true ∨
      (is2xx tokResp.status = true ∧ jsonGet tokResp.body "access_token" ≠ none))
    (hscope : scopeCount driveId userId groupId siteId ≤ 1)
    (h412 : resp.status = 412) :
    (updateItem token itemId driveId userId groupId siteId (some etag) tokResp resp).2 =
      .ok none := by
  unfold updateItem
  rw [ensureToken_ok token tokResp htok]
  have h1 : ¬ scopeCount driveId userId groupId siteId > 1 := by omega
  simp [h1, h412]

/-- Witness for C9: a conditional rename against a drive-scoped item
answered 412 on a client with a cached token. -/
theorem C9_412_yields_not_applied_witness :
    truthy (some "tok") = true ∧
    scopeCount (some "D") none none none ≤ 1 ∧
    (updateItem (some "tok") "I" (some "D") none none none (some "W/\"v7\"")
        ⟨200, [], ""⟩ ⟨412, [], "precondition failed"⟩).2 = .ok none :=
  ⟨by decide, by decide,
    C9_412_yields_not_applied (some "tok") "I" (some "D") none none none "W/\"v7\""
      ⟨200, [], ""⟩ ⟨412, [], "precondition failed"⟩ (Or.inl (by decide)) (by decide)
      (by decide)⟩

/-- C6 counterexample: on a client with no cached token, a `get_item` call
with both `item_id` and `item_path` DOES send a request to the network
before raising — `get_token()` runs first (drives.py lines 165–166), so the
trace already contains the token-exchange call when the `ValueError` is
raised.  This refutes "raises ValidationError before any request is sent to
the network" as universally stated. -/
theorem C6_counterexample :
    getItem none ⟨some "I", some "/docs/a.pdf", none, none, none, none, none, none⟩
      ⟨200, [("access_token", "T")], ""⟩ ⟨200, [], ""⟩ =
      ([.tokenCall],
        .error (.valueError "No puede proporcionar item_id e item_path simultáneamente")) := by
  rfl

/-- C6 (amended): requesting a drive item with both `item_path` and
`item_id` raises `ValueError` (the code's ValidationError) before any
Microsoft Graph request is sent — the trace contains no Graph call; the only
call that may precede the validation is the token exchange, issued exactly
when no token was cached. -/
theorem C6_both_ids_rejected_before_graph_call (token : Option String)
    (a : GetItemArgs) (tokResp resp : HttpResponse)
    (htok : truthy token = true ∨
      (is2xx tokResp.status = true ∧ jsonGet tokResp.body "access_token" ≠ none))
    (hid : a.itemId.isSome = true) (hpath : a.itemPath.isSome = true) :
    (∃ msg, (getItem token a tokResp resp).2 = .error (.valueError msg)) ∧
    (getItem token a tokResp resp).1.filter (fun c => ¬ c.isTokenCall) = [] ∧
    (getItem token a tokResp resp).1 = (if truthy token then [] else [.tokenCall]) := by
  unfold getItem
  rw [ensureToken_ok token tokResp htok]
  by_cases h1 : scopeCount a.driveId a.userId a.groupId a.siteId > 1
  · refine ⟨⟨"Solo puede proporcionar uno de: drive_id, user_id, group_id, site_id", ?_⟩, ?_, ?_⟩
    · simp [h1]
    · by_cases ht : truthy token <;> simp [h1, ht, NetCall.isTokenCall]
    · by_cases ht : truthy token <;> simp [h1, ht]
  · refine ⟨⟨"No puede proporcionar item_id e item_path simultáneamente", ?_⟩, ?_, ?_⟩
    · simp [h1, hid, hpath]
    · by_cases ht : truthy token <;> simp [h1, hid, hpath, ht, NetCall.isTokenCall]
    · by_cases ht : truthy token <;> simp [h1, hid, hpath, ht]

/-- Witness for the amended C6, on a client with a cached token: the
validation fires and the trace is completely empty. -/
theorem C6_both_ids_rejected_before_graph_call_witness :
    truthy (some "tok") = true ∧
    (∃ msg,
      (getItem (some "tok")
        ⟨some "I", some "/docs/a.pdf", none, none, none, none, none, none⟩
        ⟨200, [], ""⟩ ⟨200, [], ""⟩).2 = .error (.valueError msg)) ∧
    (getItem (some "tok")
        ⟨some "I", some "/docs/a.pdf", none, none, none, none, none, none⟩
        ⟨200, [], ""⟩ ⟨200, [], ""⟩).1.filter (fun c => ¬ c.isTokenCall) = [] ∧
    (getItem (some "tok")
        ⟨some "I", some "/docs/a.pdf", none, none, none, none, none, none⟩
        ⟨200, [], ""⟩ ⟨200, [], ""⟩).1 = (if truthy (some "tok") then [] else [.tokenCall]) :=
  ⟨by decide,
    C6_both_ids_rejected_before_graph_call (some "tok")
      ⟨some "I", some "/docs/a.pdf", none, none, none, none, none, none⟩
      ⟨200, [], ""⟩ ⟨200, [], ""⟩ (Or.inl (by decide)) (by decide) (by decide)⟩

/-- C5 counterexample: `list_drives` is a drive operation, yet supplying
`user_id` together with the mutually-exclusive `resource_id`/`resource_type`
pair raises nothing — the call succeeds and silently addresses the
resource-pair path, ignoring `user_id`.  This refutes "for every drive
operation, supplying two or more scope identifiers raises ValidationError
... with no silent precedence". -/
theorem C5_counterexample :
    listDrives (some "tok") (some "alice") (some "G1") (some "groups")
      ⟨200, [], ""⟩ ⟨200, [("value", "[]")], ""⟩ =
      ([.listDrivesCall "https://graph.microsoft.com/v1.0/groups/G1/drives"],
        .ok [("value", "[]")]) := by
  rfl

/-- C5 (amended): every drive operation that takes the four
mutually-exclusive scope identifiers — `get_drive`, `get_item`,
`update_item`, `list_items`, `list_changes`, `create_folder`,
`upload_content` and `download_content` — raises `ValueError` (the code's
ValidationError) whenever two or more of drive_id/user_id/group_id/site_id
are supplied, regardless of the combination; `list_drives`, however,
performs no mutual-exclusion check: whenever `resource_id` and
`resource_type` are both supplied, `user_id` is silently ignored (the call
behaves exactly as if `user_id` were absent). -/
theorem C5_scope_exclusivity (token : Option String) (tokResp resp : HttpResponse)
    (d u g s : Option String)
    (iid ipath lid et : Option String) (itemId : String) (etag2 : Option String)
    (liid lipath deltaToken parentId : Option String) (conflictBehavior : String)
    (S : Nat) (filename uiid upid diid dipath detag : Option String)
    (uid rid rty : Option String)
    (htok : truthy token = true)
    (h2 : 2 ≤ scopeCount d u g s)
    (hS : S ≤ 250 * 1024 * 1024)
    (hrid : truthy rid = true) (hrty : truthy rty = true) :
    (getDrive token d u g s tokResp resp).2 =
      .error (.valueError "Solo puede proporcionar un tipo de ID") ∧
    (getItem token ⟨iid, ipath, d, u, g, s, lid, et⟩ tokResp resp).2 =
      .error (.valueError "Solo puede proporcionar uno de: drive_id, user_id, group_id, site_id") ∧
    (updateItem token itemId d u g s etag2 tokResp resp).2 =
      .error (.valueError "Solo puede proporcionar uno de: drive_id, user_id, group_id, site_id") ∧
    (listItems token liid lipath d u g s tokResp resp).2 =
      .error (.valueError "Solo puede proporcionar uno de: drive_id, user_id, group_id, site_id") ∧
    (listChanges token deltaToken d u g s tokResp resp).2 =
      .error (.valueError "Solo puede proporcionar uno de: drive_id, user_id, group_id, site_id") ∧
    (createFolder token parentId d u g s conflictBehavior tokResp resp).2 =
      .error (.valueError "Solo puede proporcionar uno de: drive_id, user_id, group_id, site_id") ∧
    (uploadContent token S filename uiid upid d u g s tokResp resp).2 =
      .error (.valueError "Solo puede proporcionar uno de: drive_id, user_id, group_id, site_id") ∧
    (downloadContent token diid dipath d u g s detag tokResp resp).2 =
      .error (.valueError "Solo puede proporcionar uno de: drive_id, user_id, group_id, site_id") ∧
    listDrives token uid rid rty tokResp resp = listDrives token none rid rty tokResp resp := by
  have hens := ensureToken_ok token tokResp (Or.inl htok)
  have hn0 : ¬ scopeCount d u g s = 0 := by omega
  have hn1 : scopeCount d u g s > 1 := by omega
  have hSle : ¬ S > 250 * 1024 * 1024 := by omega
  refine ⟨?_, ?_, ?_, ?_, ?_, ?_, ?_, ?_, ?_⟩
  · unfold getDrive
    rw [hens]
    simp [hn0, hn1]
  · unfold getItem
    rw [hens]
    simp [hn1]
  · unfold updateItem
    rw [hens]
    simp [hn1]
  · unfold listItems
    rw [hens]
    simp [hn1]
  · unfold listChanges
    rw [hens]
    simp [hn1]
  · unfold createFolder
    rw [hens]
    simp [hn0, hn1]
  · unfold uploadContent
    rw [hens]
    simp [hSle, hn1]
  · unfold downloadContent
    rw [hens]
    simp [hn1]
  · unfold listDrives
    rw [hens]
    simp [hrid, hrty]

/-- Witness for the amended C5: `drive_id` and `group_id` supplied together
to the eight validating operations, and `user_id` alongside the resource
pair for `list_drives`. -/
theorem C5_scope_exclusivity_witness :
    (truthy (some "tok") = true ∧
      2 ≤ scopeCount (some "D") none (some "G") none ∧
      (42 : Nat) ≤ 250 * 1024 * 1024 ∧
      truthy (some "G1") = true ∧ truthy (some "groups") = true) ∧
    ((getDrive (some "tok") (some "D") none (some "G") none ⟨200, [], ""⟩ ⟨200, [], ""⟩).2 =
        .error (.valueError "Solo puede proporcionar un tipo de ID") ∧
      (getItem (some "tok") ⟨none, none, some "D", none, some "G", none, none, none⟩
          ⟨200, [], ""⟩ ⟨200, [], ""⟩).2 =
        .error (.valueError "Solo puede proporcionar uno de: drive_id, user_id, group_id, site_id") ∧
      (updateItem (some "tok") "I" (some "D") none (some "G") none none
          ⟨200, [], ""⟩ ⟨200, [], ""⟩).2 =
        .error (.valueError "Solo puede proporcionar uno de: drive_id, user_id, group_id, site_id") ∧
      (listItems (some "tok") none none (some "D") none (some "G") none
          ⟨200, [], ""⟩ ⟨200, [], ""⟩).2 =
        .error (.valueError "Solo puede proporcionar uno de: drive_id, user_id, group_id, site_id") ∧
      (listChanges (some "tok") none (some "D") none (some "G") none
          ⟨200, [], ""⟩ ⟨200, [], ""⟩).2 =
        .error (.valueError "Solo puede proporcionar uno de: drive_id, user_id, group_id, site_id") ∧
      (createFolder (some "tok") none (some "D") none (some "G") none "rename"
          ⟨200, [], ""⟩ ⟨200, [], ""⟩).2 =
        .error (.valueError "Solo puede proporcionar uno de: drive_id, user_id, group_id, site_id") ∧
      (uploadContent (some "tok") 42 (some "f.txt") none (some "P")
          (some "D") none (some "G") none ⟨200, [], ""⟩ ⟨200, [], ""⟩).2 =
        .error (.valueError "Solo puede proporcionar uno de: drive_id, user_id, group_id, site_id") ∧
      (downloadContent (some "tok") (some "I") none (some "D") none (some "G") none none
          ⟨200, [], ""⟩ ⟨200, [], ""⟩).2 =
        .error (.valueError "Solo puede proporcionar uno de: drive_id, user_id, group_id, site_id") ∧
      listDrives (some "tok") (some "alice") (some "G1") (some "groups")
          ⟨200, [], ""⟩ ⟨200, [], ""⟩ =
        listDrives (some "tok") none (some "G1") (some "groups")
          ⟨200, [], ""⟩ ⟨200, [], ""⟩) :=
  ⟨⟨by decide, by decide, by decide, by decide, by decide⟩,
    C5_scope_exclusivity (some "tok") ⟨200, [], ""⟩ ⟨200, [], ""⟩
      (some "D") none (some "G") none
      none none none none "I" none
      none none none none "rename"
      42 (some "f.txt") none (some "P") (some "I") none none
      (some "alice") (some "G1") (some "groups")
      (by decide) (by decide) (by decide) (by decide) (by decide)⟩

/-- C10 counterexample: a 3-tuple is a non-empty tuple, yet
`_process_recipients` raises `ValueError` on it — the unpacking
`email, name = recipient` fails for tuples longer than two — instead of
returning a normalized list.  This refutes the claim for "non-empty
tuple" elements. -/
theorem C10_counterexample :
    processRecipients [.tupleV [.strV "a@b.c", .strV "Alice", .strV "extra"]] =
      .error (.valueError "too many values to unpack (expected 2)") := by
  rfl

/-- C10 (amended): for every input list whose elements are each a string, a
tuple of length one or two, or a dict, `_process_recipients` returns a list
of the same length in which a bare string `a` becomes the dict with key
"emailAddress" mapping to the dict with "address" `a` and "name" `""`, a
1-tuple `(a,)` likewise, a 2-tuple `(a, b)` gets "address" `a` and "name"
`b`, a dict without "emailAddress" is rebuilt from its "address" entry
(Python `None` when missing) and its "name" entry (default ""), and a dict
already containing "emailAddress" is passed through unchanged with its
shape unchecked; after any prefix of such elements, an element of any type
other than str, tuple or dict raises `ValueError`, a tuple of length three
or more raises `ValueError` (tuple unpacking), and an empty tuple raises
`IndexError`. -/
theorem C10_recipients_normalization :
    (∀ rs : List PyVal, (∀ r ∈ rs, claimedInput r = true) →
      ∃ out, processRecipients rs = .ok out ∧ out.length = rs.length ∧
        ∀ p ∈ rs.zip out, claimedOutput p.1 p.2) ∧
    (∀ pre (v : PyVal) post, (∀ r ∈ pre, claimedInput r = true) → otherType v = true →
      processRecipients (pre ++ v :: post) =
        .error (.valueError "Formato de destinatario no soportado. Use string, tuple o dict")) ∧
    (∀ pre es post, (∀ r ∈ pre, claimedInput r = true) → 3 ≤ List.length es →
      processRecipients (pre ++ .tupleV es :: post) =
        .error (.valueError "too many values to unpack (expected 2)")) ∧
    (∀ pre post, (∀ r ∈ pre, claimedInput r = true) →
      processRecipients (pre ++ .tupleV [] :: post) =
        .error (.indexError "tuple index out of range")) := by
  refine ⟨?_, ?_, ?_, ?_⟩
  · intro rs h
    induction rs with
    | nil => exact ⟨[], rfl, rfl, by simp⟩
    | cons r rest ih =>
        obtain ⟨out, hout, hlen, hzip⟩ := ih (fun x hx => h x (List.mem_cons_of_mem _ hx))
        obtain ⟨o, ho, hco⟩ := processOne_ok_of_claimedInput r (h r (List.mem_cons_self _ _))
        refine ⟨o :: out, ?_, by simp [hlen], ?_⟩
        · unfold processRecipients at hout ⊢
          rw [List.mapM_cons, ho, hout]
          rfl
        · intro p hp
          rw [List.zip_cons_cons] at hp
          rcases List.mem_cons.mp hp with rfl | hp2
          · exact hco
          · exact hzip p hp2
  · intro pre v post hpre hv
    exact processRecipients_prefix_err pre v post hpre _
      (processOne_err_of_otherType v hv)
  · intro pre es post hpre hes
    exact processRecipients_prefix_err pre (.tupleV es) post hpre _
      (processOne_long_tuple es hes)
  · intro pre post hpre
    exact processRecipients_prefix_err pre (.tupleV []) post hpre _ rfl

/-- Witness for the amended C10: a mixed admissible list is normalized to
its exact expected outputs, and after an accepted string element an integer
raises `ValueError`, a 3-tuple raises the unpacking `ValueError`, and an
empty tuple raises `IndexError`. -/
theorem C10_recipients_normalization_witness :
    ((∀ r ∈ ([.strV "a@b.c", .tupleV [.strV "c@d.e", .strV "Carol"],
        .dictV [("address", .strV "x@y.z")]] : List PyVal), claimedInput r = true) ∧
      ∃ out,
        processRecipients [.strV "a@b.c", .tupleV [.strV "c@d.e", .strV "Carol"],
          .dictV [("address", .strV "x@y.z")]] = .ok out ∧
        out.length = ([.strV "a@b.c", .tupleV [.strV "c@d.e", .strV "Carol"],
          .dictV [("address", .strV "x@y.z")]] : List PyVal).length ∧
        ∀ p ∈ ([.strV "a@b.c", .tupleV [.strV "c@d.e", .strV "Carol"],
          .dictV [("address", .strV "x@y.z")]] : List PyVal).zip out, claimedOutput p.1 p.2) ∧
    (otherType (.intV 5) = true ∧
      processRecipients ([.strV "a@b.c"] ++ .intV 5 :: ([] : List PyVal)) =
        .error (.valueError "Formato de destinatario no soportado. Use string, tuple o dict")) ∧
    (3 ≤ List.length [PyVal.strV "p", PyVal.strV "q", PyVal.strV "r"] ∧
      processRecipients ([.strV "a@b.c"] ++
          .tupleV [.strV "p", .strV "q", .strV "r"] :: ([] : List PyVal)) =
        .error (.valueError "too many values to unpack (expected 2)")) ∧
    processRecipients ([.strV "a@b.c"] ++ .tupleV [] :: ([] : List PyVal)) =
      .error (.indexError "tuple index out of range") :=
  ⟨⟨by decide, C10_recipients_normalization.1 _ (by decide)⟩,
    ⟨by decide, C10_recipients_normalization.2.1 [.strV "a@b.c"] (.intV 5) [] (by decide)
      (by decide)⟩,
    ⟨by decide, C10_recipients_normalization.2.2.1 [.strV "a@b.c"]
      [.strV "p", .strV "q", .strV "r"] [] (by decide) (by decide)⟩,
    C10_recipients_normalization.2.2.2 [.strV "a@b.c"] [] (by decide)⟩

/-- The upload loop iterates `ceil(S / chunkSize)` times. -/
theorem chunkCalls_length (S : Nat) :
    (chunkCalls S).length = (S + chunkSize - 1) / chunkSize := by
  simp [chunkCalls, pyRangeStep]

/-- The i-th chunk range as computed by the loop body. -/
theorem chunkCalls_get (S i : Nat) (h : i < (chunkCalls S).length) :
    (chunkCalls S).get ⟨i, h⟩ =
      (i * chunkSize, i * chunkSize + min chunkSize (S - i * chunkSize) - 1) := by
  simp [chunkCalls, pyRangeStep, List.get_eq_getElem]

/-- Every loop iteration index addresses a strictly-in-range start offset. -/
theorem chunkCalls_start_lt (S i : Nat) (h : i < (chunkCalls S).length) :
    i * chunkSize < S := by
  rw [chunkCalls_length] at h
  unfold chunkSize at *
  omega

/-- C1: for every payload of size S in the session-strategy band, the upload
loop produces exactly `ceil(S / chunkSize)` chunks; chunk i covers the byte
range `[i*C, min ((i+1)*C) S - 1]` with `C = 4194304`; every chunk lies
within `[0, S-1]`, consecutive chunks are contiguous, and every byte below S
is covered by exactly one chunk (so the chunks are non-overlapping and their
union is exactly `[0, S-1]`); a 10485760-byte payload yields exactly the
three chunk ranges `[0,4194303]`, `[4194304,8388607]`, `[8388608,10485759]`. -/
theorem C1_chunk_ranges (S : Nat)
    (hlo : smallSizeLimit < S) (hhi : S ≤ maxAttachmentSize) :
    (chunkCalls S).length = (S + chunkSize - 1) / chunkSize ∧
    (∀ i (h : i < (chunkCalls S).length),
      (chunkCalls S).get ⟨i, h⟩ = (i * chunkSize, min ((i + 1) * chunkSize) S - 1)) ∧
    (∀ i (h : i < (chunkCalls S).length),
      ((chunkCalls S).get ⟨i, h⟩).1 ≤ ((chunkCalls S).get ⟨i, h⟩).2 ∧
      ((chunkCalls S).get ⟨i, h⟩).2 < S) ∧
    (∀ i (h1 : i + 1 < (chunkCalls S).length) (h2 : i < (chunkCalls S).length),
      ((chunkCalls S).get ⟨i + 1, h1⟩).1 = ((chunkCalls S).get ⟨i, h2⟩).2 + 1) ∧
    (∀ b, b < S → ∃! i, i < (chunkCalls S).length ∧
      i * chunkSize ≤ b ∧ b ≤ min ((i + 1) * chunkSize) S - 1) ∧
    chunkCalls 10485760 = [(0, 4194303), (4194304, 8388607), (8388608, 10485759)] := by
  have hget : ∀ i (h : i < (chunkCalls S).length),
      (chunkCalls S).get ⟨i, h⟩ = (i * chunkSize, min ((i + 1) * chunkSize) S - 1) := by
    intro i h
    rw [chunkCalls_get S i h]
    have := chunkCalls_start_lt S i h
    unfold chunkSize at *
    rw [Prod.mk.injEq]
    refine ⟨rfl, ?_⟩
    omega
  refine ⟨chunkCalls_length S, hget, ?_, ?_, ?_, by decide⟩
  · intro i h
    rw [hget i h]
    have := chunkCalls_start_lt S i h
    unfold chunkSize at *
    dsimp only
    constructor <;> omega
  · intro i h1 h2
    rw [hget (i + 1) h1, hget i h2]
    have := chunkCalls_start_lt S (i + 1) h1
    unfold chunkSize at *
    dsimp only
    omega
  · intro b hb
    have hlen := chunkCalls_length S
    refine ⟨b / chunkSize, ⟨?_, ?_, ?_⟩, ?_⟩
    · rw [hlen]
      unfold chunkSize at *
      omega
    · unfold chunkSize at *
      omega
    · unfold chunkSize at *
      omega
    · intro j hj
      obtain ⟨hj1, hj2, hj3⟩ := hj
      unfold chunkSize at *
      omega

/-- Witness for C1, at the 10-MiB scenario size. -/
theorem C1_chunk_ranges_witness :
    (smallSizeLimit < 10485760 ∧ 10485760 ≤ maxAttachmentSize) ∧
    chunkCalls 10485760 = [(0, 4194303), (4194304, 8388607), (8388608, 10485759)] :=
  ⟨by decide, (C1_chunk_ranges 10485760 (by decide) (by decide)).2.2.2.2.2⟩

/-- If every chunk response (from position k on) is 2xx, the loop PUTs every
range in order and succeeds. -/
theorem uploadChunks_all_ok (total : Nat) (chunkResp : Nat → HttpResponse)
    (l : List (Nat × Nat)) (k : Nat)
    (h : ∀ i, i < l.length → is2xx (chunkResp (k + i)).status = true) :
    uploadChunks total chunkResp l k =
      (l.map (fun p => NetCall.chunkPut p.1 p.2 total), .ok ()) := by
  induction l generalizing k with
  | nil => rfl
  | cons hd tl ih =>
      obtain ⟨start, last⟩ := hd
      have h0 : is2xx (chunkResp k).status = true := by
        have := h 0 (by simp)
        simpa using this
      have ih2 := ih (k + 1) (fun i hi => by
        have hstep := h (i + 1) (by simp only [List.length_cons]; omega)
        have heq : k + (i + 1) = k + 1 + i := by omega
        rw [heq] at hstep
        exact hstep)
      simp [uploadChunks, h0, ih2]

/-- If the chunk at offset j (from position k) is the first to fail, the
loop PUTs exactly the first j+1 ranges and raises the status error of the
failing response. -/
theorem uploadChunks_fails_at (total : Nat) (chunkResp : Nat → HttpResponse)
    (l : List (Nat × Nat)) (k j : Nat) (hj : j < l.length)
    (hok : ∀ i, i < j → is2xx (chunkResp (k + i)).status = true)
    (hbad : is2xx (chunkResp (k + j)).status = false) :
    uploadChunks total chunkResp l k =
      ((l.take (j + 1)).map (fun p => NetCall.chunkPut p.1 p.2 total),
        .error (.httpStatusError (chunkResp (k + j)).status (chunkResp (k + j)).text)) := by
  induction l generalizing k j with
  | nil => simp at hj
  | cons hd tl ih =>
      obtain ⟨start, last⟩ := hd
      cases j with
      | zero =>
          have hbad0 : is2xx (chunkResp k).status = false := by simpa using hbad
          simp [uploadChunks, hbad0]
      | succ j2 =>
          have h0 : is2xx (chunkResp k).status = true := by
            have := hok 0 (by omega)
            simpa using this
          have ih2 := ih (k + 1) j2 (by simpa using hj)
            (fun i hi => by
              have hstep := hok (i + 1) (by omega)
              have heq : k + (i + 1) = k + 1 + i := by omega
              rw [heq] at hstep
              exact hstep)
            (by
              have heq : k + (j2 + 1) = k + 1 + j2 := by omega
              rw [heq] at hbad
              exact hbad)
          have heq2 : k + (j2 + 1) = k + 1 + j2 := by omega
          rw [heq2]
          simp [uploadChunks, h0, ih2]

/-- C4: within a session-strategy transfer, the chunk loop PUTs the ranges
of `chunkCalls S` strictly sequentially: when every response is 2xx it
issues all of them, in order, and succeeds; if chunk k is the first to get
a non-2xx response, exactly chunks 0..k have been issued (so a chunk is
only issued after all earlier chunks completed with 2xx), no further chunk
follows, and the whole operation fails with that chunk's
`httpx.HTTPStatusError` propagated unchanged (no retry, no resume); chunk
start offsets are strictly increasing. -/
theorem C4_sequential_chunk_uploads (S : Nat)
    (hlo : smallSizeLimit < S) (hhi : S ≤ maxAttachmentSize)
    (chunkResp : Nat → HttpResponse) :
    ((∀ i, i < (chunkCalls S).length → is2xx (chunkResp i).status = true) →
      uploadChunks S chunkResp (chunkCalls S) 0 =
        ((chunkCalls S).map (fun p => NetCall.chunkPut p.1 p.2 S), .ok ())) ∧
    (∀ k, k < (chunkCalls S).length →
      (∀ j, j < k → is2xx (chunkResp j).status = true) →
      is2xx (chunkResp k).status = false →
      uploadChunks S chunkResp (chunkCalls S) 0 =
        (((chunkCalls S).take (k + 1)).map (fun p => NetCall.chunkPut p.1 p.2 S),
          .error (.httpStatusError (chunkResp k).status (chunkResp k).text))) ∧
    (∀ i j (hi : i < (chunkCalls S).length) (hj : j < (chunkCalls S).length), i < j →
      ((chunkCalls S).get ⟨i, hi⟩).1 < ((chunkCalls S).get ⟨j, hj⟩).1) := by
  refine ⟨?_, ?_, ?_⟩
  · intro h
    exact uploadChunks_all_ok S chunkResp (chunkCalls S) 0
      (fun i hi => by simpa using h i hi)
  · intro k hk hok hbad
    have hres := uploadChunks_fails_at S chunkResp (chunkCalls S) 0 k hk
      (fun i hi => by simpa using hok i hi) (by simpa using hbad)
    simpa using hres
  · intro i j hi hj hij
    rw [chunkCalls_get S i hi, chunkCalls_get S j hj]
    dsimp only
    unfold chunkSize
    omega

/-- Witness for C4, at the 10-MiB scenario size with the second chunk
failing (status 500): exactly the first two chunks are PUT and the 500
error propagates. -/
theorem C4_sequential_chunk_uploads_witness :
    (smallSizeLimit < 10485760 ∧ 10485760 ≤ maxAttachmentSize) ∧
    uploadChunks 10485760
        (fun i => if i = 1 then ⟨500, [], "boom"⟩ else ⟨200, [], ""⟩)
        (chunkCalls 10485760) 0 =
      (((chunkCalls 10485760).take 2).map (fun p => NetCall.chunkPut p.1 p.2 10485760),
        .error (.httpStatusError
          ((fun i => if i = 1 then (⟨500, [], "boom"⟩ : HttpResponse) else ⟨200, [], ""⟩) 1).status
          ((fun i => if i = 1 then (⟨500, [], "boom"⟩ : HttpResponse) else ⟨200, [], ""⟩) 1).text)) :=
  ⟨by decide,
    (C4_sequential_chunk_uploads 10485760 (by decide) (by decide)
        (fun i => if i = 1 then ⟨500, [], "boom"⟩ else ⟨200, [], ""⟩)).2.1
      1 (by decide) (by decide) (by decide)⟩

end MsGraph
